import Mathlib

/-!
# Smart-Roll: academic-record aggregation and access-control layer

A shallow embedding of the repository's database layer: the relational
schema (`part_003`), the SQL helper functions / RPCs (`part_002`) and the
row-level-security policies on `attendance_records` (`part_003`).

Tables become lists of rows; UUIDs become `Nat`; SQL `DATE` and
`TIMESTAMPTZ` columns become `Nat` instants; SQL `DECIMAL` becomes `ℚ`.
Nullable columns become `Option`. Presentation-only columns that no
claim mentions (descriptions, image URLs, timestamps of row creation,
letter grades) are omitted.
-/

/-- `public.user_role` enum. -/
inductive user_role where
  | admin | teacher | student | ta
  deriving DecidableEq, Repr

/-- `public.stream_type` enum. -/
inductive stream_type where
  | CSE | DSE | EE | COMMON
  deriving DecidableEq, Repr

/-- `public.enrollment_status` enum. -/
inductive enrollment_status where
  | enrolled | completed | dropped
  deriving DecidableEq, Repr

/-- `public.attendance_status` enum. -/
inductive attendance_status where
  | present | absent
  deriving DecidableEq, Repr

/-- `public.semester_season` enum. -/
inductive semester_season where
  | Fall | Spring | Summer
  deriving DecidableEq, Repr

/-- A row of `public.users` (columns used by the RPCs). -/
structure user where
  user_id : Nat
  full_name : String
  role : user_role
  deriving DecidableEq, Repr

/-- A row of `public.students`. `current_semester` has the schema check
`> 0 AND <= 8`. -/
structure student where
  student_id : Nat
  roll_number : String
  stream : stream_type
  current_semester : Nat
  deriving DecidableEq, Repr

/-- A row of `public.courses`; `logical_semester` is nullable. -/
structure course where
  course_id : Nat
  stream : stream_type
  credits : Nat
  logical_semester : Option Nat
  deriving DecidableEq, Repr

/-- A row of `public.semesters`. `start_date` is a nullable `DATE`; the
registration window bounds are `NOT NULL` timestamps. -/
structure semester where
  semester_id : Nat
  academic_year : String
  season : semester_season
  start_date : Option Nat
  registration_start_date : Nat
  registration_end_date : Nat
  is_active : Bool
  deriving DecidableEq, Repr

/-- A row of `public.course_offerings`. `teacher_id` and `semester_id`
are nullable (`ON DELETE SET NULL`). -/
structure course_offering where
  offering_id : Nat
  course_id : Nat
  teacher_id : Option Nat
  semester_id : Option Nat
  deriving DecidableEq, Repr

/-- A row of `public.enrollments`; `grade_point` is nullable. -/
structure enrollment where
  student_id : Nat
  offering_id : Nat
  grade_point : Option ℚ
  status : enrollment_status
  deriving DecidableEq, Repr

/-- A row of `public.attendance_records`. -/
structure attendance_record where
  offering_id : Nat
  student_id : Nat
  date : Nat
  status : attendance_status
  deriving DecidableEq, Repr

/-- A row of `public.course_tas`. -/
structure course_ta where
  offering_id : Nat
  ta_id : Nat
  deriving DecidableEq, Repr

/-- The database: one list of rows per table. -/
structure DB where
  users : List user
  students : List student
  courses : List course
  semesters : List semester
  course_offerings : List course_offering
  enrollments : List enrollment
  attendance_records : List attendance_record
  course_tas : List course_ta
  deriving DecidableEq, Repr

/-- SQL `TRUNC(q, 2)` for the nonnegative quantities the RPCs feed it
(truncation toward zero coincides with `⌊·⌋` on nonnegative input). -/
def trunc2 (q : ℚ) : ℚ := (⌊q * 100⌋ : ℚ) / 100

/-- RPC `increment_all_student_semesters`:
`UPDATE students SET current_semester = current_semester + 1 WHERE current_semester < 8`. -/
def increment_all_student_semesters (db : DB) : DB :=
  { db with
    students := db.students.map (fun s =>
      if s.current_semester < 8 then
        { s with current_semester := s.current_semester + 1 }
      else s) }

/-- RPC `get_total_class_days`: `COUNT(DISTINCT date)` over the
attendance records of one offering. -/
def get_total_class_days (db : DB) (o_id : Nat) : Nat :=
  (((db.attendance_records.filter (fun r => r.offering_id == o_id)).map
    (fun r => r.date)).dedup).length

/-- The number of `present` attendance records of one student in one
offering (the `COUNT(ar.status) FILTER (WHERE ar.status = 'present')`
aggregate of the RPCs, via the join on `(offering_id, student_id)`). -/
def present_count (db : DB) (o_id s_id : Nat) : Nat :=
  (db.attendance_records.filter (fun r =>
    r.offering_id == o_id && r.student_id == s_id &&
      r.status == attendance_status.present)).length

/-- The `CASE WHEN total > 0 THEN TRUNC(present * 100.0 / total, 2) ELSE 0.0 END`
expression of `get_course_attendance_stats` (and of the sibling RPCs). -/
def attendance_percentage (db : DB) (o_id s_id : Nat) : ℚ :=
  if 0 < get_total_class_days db o_id then
    trunc2 ((present_count db o_id s_id : ℚ) * 100 / (get_total_class_days db o_id : ℚ))
  else 0

/-- A result row of RPC `get_course_attendance_stats`. -/
structure stats_row where
  student_id : Nat
  full_name : String
  roll_number : String
  total_classes : Nat
  attended_classes : Nat
  attendance_percentage : ℚ
  deriving DecidableEq, Repr

/-- RPC `get_course_attendance_stats`: one shared `get_total_class_days`
value, then one row per `enrolled` student of the offering
(`GROUP BY s.student_id`, joined to `students` and `users`), with the
per-student present count from the `LEFT JOIN` on attendance records. -/
def get_course_attendance_stats (db : DB) (o_id : Nat) : List stats_row :=
  let total := get_total_class_days db o_id
  (((db.enrollments.filter (fun e =>
      e.offering_id == o_id && e.status == enrollment_status.enrolled)).map
    (fun e => e.student_id)).dedup).filterMap (fun sid =>
    (db.students.find? (fun s => s.student_id == sid)).bind (fun s =>
      (db.users.find? (fun u => u.user_id == sid)).map (fun u =>
        { student_id := sid
          full_name := u.full_name
          roll_number := s.roll_number
          total_classes := total
          attended_classes := present_count db o_id sid
          attendance_percentage := attendance_percentage db o_id sid })))

/-- The `(credits, grade_point)` pairs aggregated by RPC
`get_student_sgpa`: completed enrollments of the student with a non-null
grade point, joined to `course_offerings` and `courses`, restricted to
offerings of the target semester. -/
def sgpa_rows (db : DB) (s_id target_sem_id : Nat) : List (ℚ × ℚ) :=
  db.enrollments.filterMap (fun e =>
    if e.student_id == s_id && e.status == enrollment_status.completed then
      e.grade_point.bind (fun gp =>
        (db.course_offerings.find? (fun co => co.offering_id == e.offering_id)).bind
          (fun co =>
            if co.semester_id == some target_sem_id then
              (db.courses.find? (fun c => c.course_id == co.course_id)).map
                (fun c => ((c.credits : ℚ), gp))
            else none))
    else none)

/-- RPC `get_student_sgpa`:
`COALESCE(SUM(credits * grade_point) / SUM(credits), 0.0)` — `NULL`
(hence `0.0`) exactly when no row qualifies. -/
def get_student_sgpa (db : DB) (s_id target_sem_id : Nat) : ℚ :=
  let rows := sgpa_rows db s_id target_sem_id
  if rows.isEmpty then 0
  else ((rows.map (fun p => p.1 * p.2)).sum) / ((rows.map (fun p => p.1)).sum)

/-- The `(credits, grade_point)` pairs aggregated by RPC
`get_student_cgpa`: completed graded enrollments of the student, joined
to `course_offerings`, `semesters` and `courses`, with
`(max_sem_date IS NULL OR s.start_date <= max_sem_date)` — the inner
join to `semesters` keeps only offerings whose `semester_id` references
an existing semester row. -/
def cgpa_rows (db : DB) (s_id : Nat) (max_sem_date : Option Nat) : List (ℚ × ℚ) :=
  db.enrollments.filterMap (fun e =>
    if e.student_id == s_id && e.status == enrollment_status.completed then
      e.grade_point.bind (fun gp =>
        (db.course_offerings.find? (fun co => co.offering_id == e.offering_id)).bind
          (fun co =>
            co.semester_id.bind (fun sid =>
              (db.semesters.find? (fun s => s.semester_id == sid)).bind (fun s =>
                (db.courses.find? (fun c => c.course_id == co.course_id)).bind
                  (fun c =>
                    if (match max_sem_date with
                        | none => true
                        | some d =>
                          match s.start_date with
                          | none => false
                          | some sd => sd ≤ d) then
                      some ((c.credits : ℚ), gp)
                    else none)))))
    else none)

/-- RPC `get_student_cgpa`: same `COALESCE(SUM/SUM, 0.0)` shape as
`get_student_sgpa`, over `cgpa_rows`. -/
def get_student_cgpa (db : DB) (s_id : Nat) (max_sem_date : Option Nat) : ℚ :=
  let rows := cgpa_rows db s_id max_sem_date
  if rows.isEmpty then 0
  else ((rows.map (fun p => p.1 * p.2)).sum) / ((rows.map (fun p => p.1)).sum)

/-- The claim's reading of CGPA with no cutoff, following the spec's
words: the credit-weighted formula over ALL of the student's completed
graded enrollments (joined to their offering and course), with no
requirement that the offering still references an existing semester
row. Used only to compare against `get_student_cgpa`. -/
def cgpa_claimed_rows (db : DB) (s_id : Nat) : List (ℚ × ℚ) :=
  db.enrollments.filterMap (fun e =>
    if e.student_id == s_id && e.status == enrollment_status.completed then
      e.grade_point.bind (fun gp =>
        (db.course_offerings.find? (fun co => co.offering_id == e.offering_id)).bind
          (fun co =>
            (db.courses.find? (fun c => c.course_id == co.course_id)).map
              (fun c => ((c.credits : ℚ), gp))))
    else none)

/-- The claim's CGPA (no cutoff): `Σ(credits·grade_point) / Σ(credits)`
over `cgpa_claimed_rows`, `0` when there are none. -/
def cgpa_claimed (db : DB) (s_id : Nat) : ℚ :=
  let rows := cgpa_claimed_rows db s_id
  if rows.isEmpty then 0
  else ((rows.map (fun p => p.1 * p.2)).sum) / ((rows.map (fun p => p.1)).sum)

/-- A result row of RPC `get_teacher_offerings_with_status` (string
presentation columns omitted; `start_date` of the joined semester is
kept because the RPC orders by it). -/
structure teacher_offering_row where
  offering_id : Nat
  course_id : Nat
  teacher_id : Option Nat
  semester_id : Nat
  logical_semester : Option Nat
  academic_year : String
  season : semester_season
  stream : stream_type
  start_date : Option Nat
  is_completed : Bool
  deriving DecidableEq, Repr

/-- `ORDER BY s.start_date DESC`: Postgres sorts `DESC NULLS FIRST`, so
a null `start_date` sorts before every concrete date. -/
def date_ge (a b : Option Nat) : Bool :=
  match a, b with
  | none, _ => true
  | some _, none => false
  | some x, some y => decide (y ≤ x)

/-- The row order of `get_teacher_offerings_with_status`. -/
abbrev tor_ge (a b : teacher_offering_row) : Prop :=
  date_ge a.start_date b.start_date = true

instance : IsTotal teacher_offering_row tor_ge where
  total a b := by
    rcases ha : a.start_date with _ | x <;> rcases hb : b.start_date with _ | y
    · exact Or.inl (by simp [tor_ge, date_ge, ha, hb])
    · exact Or.inl (by simp [tor_ge, date_ge, ha, hb])
    · exact Or.inr (by simp [tor_ge, date_ge, ha, hb])
    · rcases Nat.le_total x y with h | h
      · exact Or.inr (by simp [tor_ge, date_ge, ha, hb, h])
      · exact Or.inl (by simp [tor_ge, date_ge, ha, hb, h])

set_option linter.unnecessarySeqFocus false in
instance : IsTrans teacher_offering_row tor_ge where
  trans a b c hab hbc := by
    rcases ha : a.start_date with _ | x <;> rcases hb : b.start_date with _ | y <;>
      rcases hc : c.start_date with _ | z <;>
      simp_all [tor_ge, date_ge] <;> omega

/-- RPC `get_teacher_offerings_with_status`: the offerings with
`teacher_id = t_id`, joined to `courses` and `semesters`, annotated with
`EXISTS (SELECT 1 FROM enrollments e WHERE e.offering_id = co.offering_id
AND e.status = 'completed')`, ordered by the semester's `start_date`
descending. -/
def get_teacher_offerings_with_status (db : DB) (t_id : Nat) : List teacher_offering_row :=
  ((db.course_offerings.filter (fun co => co.teacher_id == some t_id)).filterMap
    (fun co =>
      (db.courses.find? (fun c => c.course_id == co.course_id)).bind (fun c =>
        (co.semester_id.bind (fun sid =>
          db.semesters.find? (fun s => s.semester_id == sid))).map (fun s =>
          { offering_id := co.offering_id
            course_id := co.course_id
            teacher_id := co.teacher_id
            semester_id := s.semester_id
            logical_semester := c.logical_semester
            academic_year := s.academic_year
            season := s.season
            stream := c.stream
            start_date := s.start_date
            is_completed := db.enrollments.any (fun e =>
              e.offering_id == co.offering_id &&
                e.status == enrollment_status.completed) })))).insertionSort tor_ge

/-- The `is_active = true AND registration_start_date < NOW() AND
registration_end_date > NOW()` condition of
`get_available_offerings_for_student`. -/
def registration_open (now : Nat) (s : semester) : Bool :=
  s.is_active && decide (s.registration_start_date < now) &&
    decide (now < s.registration_end_date)

/-- A result row of RPC `get_available_offerings_for_student`:
`co.*` plus the embedded course object. -/
structure available_offering_row where
  offering : course_offering
  course : course
  deriving DecidableEq, Repr

/-- RPC `get_available_offerings_for_student`: look up the student's
`current_semester` and `stream` (SQL `SELECT INTO`: both `NULL` when the
student row is missing), pick one semester with registration currently
open (`LIMIT 1`), return `[]` when there is none; otherwise the
offerings of that semester whose course stream is the student's stream
or `COMMON` (`NULL` stream matches only `COMMON`), whose
`logical_semester` equals the student's current semester or is null, and
for which the student has no enrollment row of any status. -/
def get_available_offerings_for_student (db : DB) (now : Nat) (s_id : Nat) :
    List available_offering_row :=
  let stu := db.students.find? (fun s => s.student_id == s_id)
  let student_semester : Option Nat := stu.map (fun s => s.current_semester)
  let student_stream : Option stream_type := stu.map (fun s => s.stream)
  match db.semesters.find? (registration_open now) with
  | none => []
  | some active_sem =>
    (db.course_offerings.filter (fun co =>
        co.semester_id == some active_sem.semester_id)).filterMap (fun co =>
      (db.courses.find? (fun c => c.course_id == co.course_id)).bind (fun c =>
        if (student_stream == some c.stream || c.stream == stream_type.COMMON) &&
            (c.logical_semester == student_semester || c.logical_semester == none) &&
            !(db.enrollments.any (fun e =>
              e.student_id == s_id && e.offering_id == co.offering_id)) then
          some { offering := co, course := c }
        else none))

/-- The acting principal of a request: identity and role resolved from
the authenticated session (`auth.uid()`, `current_user_role()`). -/
structure principal where
  uid : Nat
  role : user_role
  deriving DecidableEq, Repr

/-- The `attendance_records` row-level-security SELECT predicate: the
disjunction of the four policies — admins see all rows, a user sees rows
whose `student_id` is their own id, teachers of the row's offering see
it, assigned TAs of the row's offering see it. -/
def attendance_select_allowed (db : DB) (p : principal) (r : attendance_record) : Bool :=
  (p.role == user_role.admin) ||
  (r.student_id == p.uid) ||
  (db.course_offerings.any (fun co =>
    co.offering_id == r.offering_id && co.teacher_id == some p.uid)) ||
  (db.course_tas.any (fun ct =>
    ct.offering_id == r.offering_id && ct.ta_id == p.uid))

/-- A `SELECT * FROM attendance_records WHERE offering_id = o_id` issued
by `p` under row-level security: RLS silently filters out the rows the
policies deny; a SELECT never raises an authorization error. -/
def select_attendance_records (db : DB) (p : principal) (o_id : Nat) :
    List attendance_record :=
  (db.attendance_records.filter (fun r => r.offering_id == o_id)).filter
    (attendance_select_allowed db p)

/-- The error taxonomy of the spec's §7 (the two cases the
StartRegistration claims distinguish). -/
inductive api_error where
  | validation | conflict
  deriving DecidableEq, Repr

/-- Modelled from the spec: the backend handler behind
`POST /api/admin/registration/start` is not in the repository (only the
frontend caller and the `semesters` schema are). Per the spec,
`StartRegistration(academic_year, season, start, end)` validates
`end > start` (ValidationError, rejected before touching the store),
then inserts a `semesters` row marked active; the schema's
`UNIQUE(academic_year, season)` constraint makes a duplicate pair fail
with a ConflictError and insert nothing. -/
def start_registration (db : DB) (new_id : Nat) (year : String)
    (season : semester_season) (reg_start reg_end : Nat) :
    Except api_error DB :=
  if reg_end ≤ reg_start then Except.error api_error.validation
  else if db.semesters.any (fun s =>
    s.academic_year == year && s.season == season) then
    Except.error api_error.conflict
  else
    Except.ok { db with
      semesters := db.semesters ++
        [{ semester_id := new_id
           academic_year := year
           season := season
           start_date := none
           registration_start_date := reg_start
           registration_end_date := reg_end
           is_active := true }] }

/-- The spec's attendance scenario: one offering (id 1) with one
enrolled student (id 1), 10 recorded class days, 8 `present`. -/
def db_c1 : DB :=
  { users := [⟨1, "a", user_role.student⟩]
    students := [⟨1, "r1", stream_type.CSE, 3⟩]
    courses := [⟨1, stream_type.CSE, 4, some 3⟩]
    semesters := [⟨1, "2025", semester_season.Fall, some 100, 10, 20, true⟩]
    course_offerings := [⟨1, 1, some 2, some 1⟩]
    enrollments := [⟨1, 1, none, enrollment_status.enrolled⟩]
    attendance_records :=
      [⟨1, 1, 1, attendance_status.present⟩, ⟨1, 1, 2, attendance_status.present⟩,
       ⟨1, 1, 3, attendance_status.present⟩, ⟨1, 1, 4, attendance_status.present⟩,
       ⟨1, 1, 5, attendance_status.present⟩, ⟨1, 1, 6, attendance_status.present⟩,
       ⟨1, 1, 7, attendance_status.present⟩, ⟨1, 1, 8, attendance_status.present⟩,
       ⟨1, 1, 9, attendance_status.absent⟩, ⟨1, 1, 10, attendance_status.absent⟩]
    course_tas := [] }

/-- The stats row `get_course_attendance_stats db_c1 1` produces. -/
def row_c1 : stats_row :=
  { student_id := 1, full_name := "a", roll_number := "r1"
    total_classes := 10, attended_classes := 8, attendance_percentage := 80 }

/-- A state where an offering's `semester_id` was nulled
(`ON DELETE SET NULL`) while a completed graded enrollment in it
remains: course of 4 credits, grade point 10. -/
def db_c3 : DB :=
  { users := [], students := []
    courses := [⟨1, stream_type.CSE, 4, none⟩]
    semesters := []
    course_offerings := [⟨1, 1, some 2, none⟩]
    enrollments := [⟨1, 1, some 10, enrollment_status.completed⟩]
    attendance_records := [], course_tas := [] }

/-- Two completed graded courses in one semester: 4 credits at grade
point 10 and 2 credits at grade point 8. -/
def db_c3b : DB :=
  { users := [], students := []
    courses := [⟨1, stream_type.CSE, 4, some 3⟩, ⟨2, stream_type.CSE, 2, some 3⟩]
    semesters := [⟨1, "2025", semester_season.Fall, some 100, 10, 20, true⟩]
    course_offerings := [⟨1, 1, some 9, some 1⟩, ⟨2, 2, some 9, some 1⟩]
    enrollments := [⟨1, 1, some 10, enrollment_status.completed⟩,
                    ⟨1, 2, some 8, enrollment_status.completed⟩]
    attendance_records := [], course_tas := [] }

/-- An offering (id 1) taught by teacher 100 with one attendance record;
teacher 300 neither teaches it nor is assigned as its TA. -/
def db_c6 : DB :=
  { users := [⟨300, "t", user_role.teacher⟩]
    students := [], courses := [], semesters := []
    course_offerings := [⟨1, 1, some 100, some 1⟩]
    enrollments := []
    attendance_records := [⟨1, 200, 1, attendance_status.present⟩]
    course_tas := [] }

/-- A state already holding the Semester `("2025", Fall)`. -/
def db_c7 : DB :=
  { users := [], students := [], courses := []
    semesters := [⟨1, "2025", semester_season.Fall, none, 10, 20, true⟩]
    course_offerings := [], enrollments := []
    attendance_records := [], course_tas := [] }

/-- Teacher 1 teaches offering 1, but the offering's `semester_id` was
nulled (`ON DELETE SET NULL`): the RPC's inner join to `semesters`
drops it. -/
def db_c8 : DB :=
  { users := [], students := []
    courses := [⟨1, stream_type.CSE, 4, none⟩]
    semesters := []
    course_offerings := [⟨1, 1, some 1, none⟩]
    enrollments := [], attendance_records := [], course_tas := [] }

/-- Student 1 (stream CSE, semester 3) dropped offering 2; offering 1 is
open for registration at `now = 20` and untouched by the student. -/
def db_c10 : DB :=
  { users := [], students := [⟨1, "r1", stream_type.CSE, 3⟩]
    courses := [⟨1, stream_type.CSE, 4, some 3⟩, ⟨2, stream_type.CSE, 4, some 3⟩]
    semesters := [⟨1, "2025", semester_season.Fall, some 100, 10, 30, true⟩]
    course_offerings := [⟨1, 1, some 9, some 1⟩, ⟨2, 2, some 9, some 1⟩]
    enrollments := [⟨1, 2, none, enrollment_status.dropped⟩]
    attendance_records := [], course_tas := [] }

/-- The single row `get_available_offerings_for_student db_c10 20 1`
returns. -/
def row_c10 : available_offering_row :=
  { offering := ⟨1, 1, some 9, some 1⟩, course := ⟨1, stream_type.CSE, 4, some 3⟩ }

/-- C1: `AttendancePercentage(offering, student)` is
`present_count / TotalClassDays * 100` truncated to 2 decimals when
`TotalClassDays > 0`, exactly `0` when `TotalClassDays = 0` (it is a
total function on `ℚ` — no division by zero, no NaN, no error); and on
the spec's scenario (10 recorded class days, 8 present) the stats RPC
returns exactly the row `(total 10, attended 8, percentage 80)`. -/
theorem C1_attendance_percentage_spec (db : DB) (o_id s_id : Nat) :
    (get_total_class_days db o_id = 0 → attendance_percentage db o_id s_id = 0) ∧
    (0 < get_total_class_days db o_id →
      attendance_percentage db o_id s_id =
        trunc2 ((present_count db o_id s_id : ℚ) / (get_total_class_days db o_id : ℚ) * 100)) ∧
    (get_course_attendance_stats db_c1 1).map
        (fun r => (r.total_classes, r.attended_classes, r.attendance_percentage)) =
      [(10, 8, (80 : ℚ))] := by
  refine ⟨?_, ?_, ?_⟩
  · intro h
    simp [attendance_percentage, h]
  · intro h
    rw [attendance_percentage, if_pos h]
    congr 1
    ring
  · simp only [get_course_attendance_stats, db_c1, get_total_class_days, present_count,
      attendance_percentage, trunc2]
    simp [List.filter_cons, List.filterMap_cons, List.find?_cons, List.dedup_cons_of_mem,
      List.dedup_cons_of_not_mem, List.dedup_nil]
    norm_num

/-- C5: `AdvanceAllSemesters` relates each student row to its updated
row: a student below semester 8 is incremented by exactly one, a student
at 8 is left unchanged entirely, no student's result exceeds 8 when it
did not before; hence the invariant `current_semester ∈ [1,8]` is
preserved on every state satisfying it. -/
theorem C5_advance_all_semesters (db : DB) :
    List.Forall₂ (fun s t =>
        (s.current_semester < 8 → t.current_semester = s.current_semester + 1) ∧
        (s.current_semester = 8 → t = s) ∧
        (s.current_semester ≤ 8 → t.current_semester ≤ 8))
      db.students (increment_all_student_semesters db).students ∧
    ((∀ s ∈ db.students, 1 ≤ s.current_semester ∧ s.current_semester ≤ 8) →
      ∀ t ∈ (increment_all_student_semesters db).students,
        1 ≤ t.current_semester ∧ t.current_semester ≤ 8) := by
  constructor
  · rw [increment_all_student_semesters]
    rw [List.forall₂_map_right_iff, List.forall₂_same]
    intro s _
    by_cases h : s.current_semester < 8
    · refine ⟨fun _ => by simp [h], fun h8 => by omega, fun _ => by simp [h]; omega⟩
    · refine ⟨fun hlt => absurd hlt h, fun _ => by simp [h], fun h8 => by simp [h]; omega⟩
  · intro hinv t ht
    rw [increment_all_student_semesters] at ht
    obtain ⟨s, hs, rfl⟩ := List.mem_map.1 ht
    have := hinv s hs
    by_cases h : s.current_semester < 8 <;> simp [h] <;> omega

/-- C7: in a state already holding a Semester with the given
`(academic_year, season)` pair, `StartRegistration` for that pair (with
a valid window) fails with a ConflictError — not a ValidationError —
and creates no Semester row (the operation returns no new state). -/
theorem C7_duplicate_semester_conflict (db : DB) (new_id : Nat) (year : String)
    (season : semester_season) (reg_start reg_end : Nat)
    (hdup : ∃ s ∈ db.semesters, s.academic_year = year ∧ s.season = season)
    (hvalid : reg_start < reg_end) :
    start_registration db new_id year season reg_start reg_end =
      Except.error api_error.conflict := by
  obtain ⟨s, hs, hy, hse⟩ := hdup
  rw [start_registration, if_neg (by omega), if_pos]
  exact List.any_eq_true.2 ⟨s, hs, by simp [hy, hse]⟩

/-- Witness for C7: starting registration for `("2025", Fall)` twice —
`db_c7` already holds that semester — yields `ConflictError`. -/
theorem C7_witness :
    start_registration db_c7 2 "2025" semester_season.Fall 30 40 =
      Except.error api_error.conflict :=
  C7_duplicate_semester_conflict db_c7 2 "2025" semester_season.Fall 30 40
    ⟨⟨1, "2025", semester_season.Fall, none, 10, 20, true⟩, by decide, rfl, rfl⟩
    (by decide)

/-- Any row returned by `get_available_offerings_for_student` comes from
a semester with registration currently open, belongs to that semester,
matches the student's stream (or is COMMON), matches the student's
current semester (or has null `logical_semester`), and has no enrollment
row of the student — of any status. -/
lemma mem_available_offerings (db : DB) (now s_id : Nat)
    (row : available_offering_row)
    (h : row ∈ get_available_offerings_for_student db now s_id) :
    ∃ sem ∈ db.semesters, registration_open now sem = true ∧
      row.offering.semester_id = some sem.semester_id ∧
      ((db.students.find? (fun s => s.student_id == s_id)).map (fun s => s.stream) =
          some row.course.stream ∨ row.course.stream = stream_type.COMMON) ∧
      (row.course.logical_semester =
          (db.students.find? (fun s => s.student_id == s_id)).map
            (fun s => s.current_semester) ∨
        row.course.logical_semester = none) ∧
      ¬∃ e ∈ db.enrollments, e.student_id = s_id ∧
        e.offering_id = row.offering.offering_id := by
  cases hfind : db.semesters.find? (registration_open now) with
  | none =>
    simp only [get_available_offerings_for_student, hfind] at h
    simp at h
  | some sem =>
    simp only [get_available_offerings_for_student, hfind] at h
    rw [List.mem_filterMap] at h
    obtain ⟨co, hco, hbind⟩ := h
    rw [Option.bind_eq_some] at hbind
    obtain ⟨c, hc, hif⟩ := hbind
    have hmemsem : sem ∈ db.semesters := List.mem_of_find?_eq_some hfind
    have hopen : registration_open now sem = true := List.find?_some hfind
    rw [List.mem_filter] at hco
    obtain ⟨-, hcosem⟩ := hco
    rw [beq_iff_eq] at hcosem
    by_cases hcond :
        (((db.students.find? (fun s => s.student_id == s_id)).map (fun s => s.stream) ==
            some c.stream || c.stream == stream_type.COMMON) &&
          (c.logical_semester ==
              (db.students.find? (fun s => s.student_id == s_id)).map
                (fun s => s.current_semester) || c.logical_semester == none) &&
          !(db.enrollments.any (fun e =>
            e.student_id == s_id && e.offering_id == co.offering_id))) = true
    · rw [if_pos hcond] at hif
      obtain rfl : ({ offering := co, course := c } : available_offering_row) = row :=
        Option.some_injective _ hif
      simp only [Bool.and_eq_true, Bool.or_eq_true, beq_iff_eq, Bool.not_eq_true',
        List.any_eq_false] at hcond
      obtain ⟨⟨hstream, hlogical⟩, hnoenroll⟩ := hcond
      refine ⟨sem, hmemsem, hopen, hcosem, hstream, ?_, ?_⟩
      · rcases hlogical with h1 | h1
        · exact Or.inl h1
        · exact Or.inr h1
      · rintro ⟨e, he, hes, heo⟩
        have := hnoenroll e he
        simp [hes, heo] at this
    · rw [if_neg hcond] at hif
      exact absurd hif (by simp)

/-- C4: `AvailableOfferings(student)` returns `[]` whenever no semester
satisfies `is_active AND registration_start < now < registration_end`;
and when one exists, every returned offering belongs to a semester
satisfying that conjunction, has a course whose stream is the student's
stream or COMMON, has `logical_semester` equal to the student's current
semester or null, and has no enrollment row of the student. -/
theorem C4_available_offerings (db : DB) (now s_id : Nat) :
    ((∀ sem ∈ db.semesters, registration_open now sem = false) →
      get_available_offerings_for_student db now s_id = []) ∧
    (∀ row ∈ get_available_offerings_for_student db now s_id,
      ∃ sem ∈ db.semesters, registration_open now sem = true ∧
        row.offering.semester_id = some sem.semester_id ∧
        ((db.students.find? (fun s => s.student_id == s_id)).map (fun s => s.stream) =
            some row.course.stream ∨ row.course.stream = stream_type.COMMON) ∧
        (row.course.logical_semester =
            (db.students.find? (fun s => s.student_id == s_id)).map
              (fun s => s.current_semester) ∨
          row.course.logical_semester = none) ∧
        ¬∃ e ∈ db.enrollments, e.student_id = s_id ∧
          e.offering_id = row.offering.offering_id) := by
  constructor
  · intro hnone
    have hfind : db.semesters.find? (registration_open now) = none :=
      List.find?_eq_none.2 (fun x hx => by simp [hnone x hx])
    simp [get_available_offerings_for_student, hfind]
  · exact fun row h => mem_available_offerings db now s_id row h

/-- C10: a returned available offering has no enrollment row of the
student of ANY status — in particular an offering the student dropped
never reappears among their available offerings. -/
theorem C10_excludes_any_enrollment (db : DB) (now s_id : Nat)
    (row : available_offering_row)
    (hrow : row ∈ get_available_offerings_for_student db now s_id)
    (e : enrollment) (he : e ∈ db.enrollments) (hes : e.student_id = s_id) :
    e.offering_id ≠ row.offering.offering_id := by
  obtain ⟨sem, hsem, hopen, hbelong, hstream, hlogical, hnot⟩ :=
    mem_available_offerings db now s_id row hrow
  exact fun heq => hnot ⟨e, he, hes, heq⟩

/-- Witness for C10: in `db_c10` student 1 dropped offering 2; offering
1 is returned as available, and the dropped enrollment's offering (2)
differs from it. -/
theorem C10_witness :
    (⟨1, 2, none, enrollment_status.dropped⟩ : enrollment).offering_id ≠
      row_c10.offering.offering_id :=
  C10_excludes_any_enrollment db_c10 20 1 row_c10 (by decide)
    ⟨1, 2, none, enrollment_status.dropped⟩ (by decide) rfl

/-- Shape of a row of `get_course_attendance_stats`: its student id is
one of the deduplicated enrolled student ids, and its numeric fields are
the shared denominator, the present count and the percentage for that
student. -/
lemma stats_row_shape (db : DB) (o_id : Nat) (r : stats_row)
    (h : r ∈ get_course_attendance_stats db o_id) :
    r.student_id ∈ (((db.enrollments.filter (fun e =>
        e.offering_id == o_id && e.status == enrollment_status.enrolled)).map
      (fun e => e.student_id)).dedup) ∧
    r.total_classes = get_total_class_days db o_id ∧
    r.attended_classes = present_count db o_id r.student_id ∧
    r.attendance_percentage = attendance_percentage db o_id r.student_id := by
  simp only [get_course_attendance_stats] at h
  rw [List.mem_filterMap] at h
  obtain ⟨sid, hsid, hf⟩ := h
  rw [Option.bind_eq_some] at hf
  obtain ⟨s, hs, hmap⟩ := hf
  rw [Option.map_eq_some'] at hmap
  obtain ⟨u, hu, hr⟩ := hmap
  subst hr
  exact ⟨hsid, rfl, rfl, rfl⟩

/-- `filterMap` by a function that embeds the key, over a `Nodup` list,
yields rows with `Nodup` keys. -/
lemma filterMap_key_nodup {α β : Type} (f : α → Option β) (g : β → α)
    (hf : ∀ a b, f a = some b → g b = a) :
    ∀ l : List α, l.Nodup → ((l.filterMap f).map g).Nodup := by
  intro l
  induction l with
  | nil => intro _; simp
  | cons a l ih =>
    intro hl
    rw [List.filterMap_cons]
    cases hfa : f a with
    | none => exact ih hl.of_cons
    | some b =>
      rw [List.map_cons, List.nodup_cons]
      refine ⟨?_, ih hl.of_cons⟩
      intro hmem
      obtain ⟨b', hb', hgb⟩ := List.mem_map.1 hmem
      obtain ⟨a', ha', hfa'⟩ := List.mem_filterMap.1 hb'
      have : a' = a := by rw [← hf a' b' hfa', hgb, hf a b hfa]
      exact (List.nodup_cons.1 hl).1 (this ▸ ha')

/-- C2: every row of `CourseAttendanceStats(offering)` carries the one
shared `TotalClassDays` denominator; at most one row per student; and —
whenever every enrollment's student has its `students` and `users` rows
(the schema's foreign keys) — a row exists for a student id exactly when
that student has an `enrolled` enrollment in the offering. -/
theorem C2_stats_exactly_enrolled (db : DB) (o_id : Nat) :
    (∀ r ∈ get_course_attendance_stats db o_id,
      r.total_classes = get_total_class_days db o_id) ∧
    ((get_course_attendance_stats db o_id).map (fun r => r.student_id)).Nodup ∧
    ((∀ e ∈ db.enrollments,
        (∃ s ∈ db.students, s.student_id = e.student_id) ∧
        (∃ u ∈ db.users, u.user_id = e.student_id)) →
      ∀ sid : Nat,
        (∃ r ∈ get_course_attendance_stats db o_id, r.student_id = sid) ↔
        (∃ e ∈ db.enrollments, e.offering_id = o_id ∧
          e.status = enrollment_status.enrolled ∧ e.student_id = sid)) := by
  refine ⟨?_, ?_, ?_⟩
  · exact fun r hr => (stats_row_shape db o_id r hr).2.1
  · simp only [get_course_attendance_stats]
    refine filterMap_key_nodup _ (fun r : stats_row => r.student_id) ?_ _ (List.nodup_dedup _)
    intro sid r hf
    rw [Option.bind_eq_some] at hf
    obtain ⟨s, hs, hmap⟩ := hf
    rw [Option.map_eq_some'] at hmap
    obtain ⟨u, hu, hr⟩ := hmap
    subst hr
    rfl
  · intro hfk sid
    constructor
    · rintro ⟨r, hr, rfl⟩
      have hmem := (stats_row_shape db o_id r hr).1
      rw [List.mem_dedup] at hmem
      obtain ⟨e, he, hesid⟩ := List.mem_map.1 hmem
      rw [List.mem_filter] at he
      obtain ⟨hel, hcond⟩ := he
      simp only [Bool.and_eq_true, beq_iff_eq] at hcond
      exact ⟨e, hel, hcond.1, hcond.2, hesid⟩
    · rintro ⟨e, he, heo, hest, hesid⟩
      have hsidmem : sid ∈ (((db.enrollments.filter (fun e =>
          e.offering_id == o_id && e.status == enrollment_status.enrolled)).map
        (fun e => e.student_id)).dedup) := by
        rw [List.mem_dedup]
        exact List.mem_map.2 ⟨e, List.mem_filter.2 ⟨he, by simp [heo, hest]⟩, hesid⟩
      obtain ⟨⟨s, hs, hssid⟩, ⟨u, hu, husid⟩⟩ := hfk e he
      have hfs : (db.students.find? (fun s => s.student_id == sid)).isSome :=
        List.find?_isSome.2 ⟨s, hs, by simp [hssid, hesid]⟩
      have hfu : (db.users.find? (fun u => u.user_id == sid)).isSome :=
        List.find?_isSome.2 ⟨u, hu, by simp [husid, hesid]⟩
      obtain ⟨s', hs'⟩ := Option.isSome_iff_exists.1 hfs
      obtain ⟨u', hu'⟩ := Option.isSome_iff_exists.1 hfu
      refine ⟨{ student_id := sid
                full_name := u'.full_name
                roll_number := s'.roll_number
                total_classes := get_total_class_days db o_id
                attended_classes := present_count db o_id sid
                attendance_percentage := attendance_percentage db o_id sid }, ?_, rfl⟩
      simp only [get_course_attendance_stats]
      exact List.mem_filterMap.2 ⟨sid, hsidmem, by rw [hs', hu']; rfl⟩

/-- A `Nodup` list contained in another list is no longer than the
other list's deduplication. -/
lemma nodup_subset_length_le {α : Type} [DecidableEq α] (l₁ l₂ : List α)
    (h : l₁.Nodup) (hsub : l₁ ⊆ l₂) : l₁.length ≤ l₂.dedup.length := by
  calc l₁.length = l₁.toFinset.card := (List.toFinset_card_of_nodup h).symm
    _ ≤ l₂.toFinset.card := Finset.card_le_card (fun x hx => by
        rw [List.mem_toFinset] at hx ⊢
        exact hsub hx)
    _ = l₂.dedup.length := List.card_toFinset l₂

/-- Under the schema's `UNIQUE(offering_id, student_id, date)`
constraint, one student's present records in one offering have pairwise
distinct dates, each a recorded date of the offering — so the present
count never exceeds the count of distinct class days. -/
lemma present_count_le_total (db : DB) (o_id s_id : Nat)
    (huniq : db.attendance_records.Pairwise (fun r1 r2 =>
      ¬(r1.offering_id = r2.offering_id ∧ r1.student_id = r2.student_id ∧
        r1.date = r2.date))) :
    present_count db o_id s_id ≤ get_total_class_days db o_id := by
  classical
  have hPpw := huniq.sublist (List.filter_sublist (l := db.attendance_records)
    (p := fun r => r.offering_id == o_id && r.student_id == s_id &&
      r.status == attendance_status.present))
  have hmem : ∀ r ∈ db.attendance_records.filter (fun r =>
      r.offering_id == o_id && r.student_id == s_id &&
        r.status == attendance_status.present),
      r.offering_id = o_id ∧ r.student_id = s_id := by
    intro r hr
    have h1 := (List.mem_filter.1 hr).2
    simp only [Bool.and_eq_true, beq_iff_eq] at h1
    exact ⟨h1.1.1, h1.1.2⟩
  have hpd : (db.attendance_records.filter (fun r =>
      r.offering_id == o_id && r.student_id == s_id &&
        r.status == attendance_status.present)).Pairwise
      (fun a b => a.date ≠ b.date) := by
    refine List.Pairwise.imp_of_mem ?_ hPpw
    intro a b ha hb hR heq
    exact hR ⟨(hmem a ha).1.trans (hmem b hb).1.symm,
      (hmem a ha).2.trans (hmem b hb).2.symm, heq⟩
  have hnodup : ((db.attendance_records.filter (fun r =>
      r.offering_id == o_id && r.student_id == s_id &&
        r.status == attendance_status.present)).map (fun r => r.date)).Nodup :=
    List.Pairwise.map _ (fun _ _ h => h) hpd
  have hsub : ((db.attendance_records.filter (fun r =>
      r.offering_id == o_id && r.student_id == s_id &&
        r.status == attendance_status.present)).map (fun r => r.date)) ⊆
      ((db.attendance_records.filter (fun r => r.offering_id == o_id)).map
        (fun r => r.date)) := by
    intro d hd
    obtain ⟨r, hr, rfl⟩ := List.mem_map.1 hd
    refine List.mem_map.2 ⟨r, ?_, rfl⟩
    rw [List.mem_filter]
    exact ⟨(List.mem_filter.1 hr).1, by simp [(hmem r hr).1]⟩
  have := nodup_subset_length_le _ _ hnodup hsub
  rw [List.length_map] at this
  exact this

/-- The percentage formula lies in `[0, 100]` whenever the present
count is at most the total class days. -/
lemma attendance_percentage_bounds (db : DB) (o_id s_id : Nat)
    (hle : present_count db o_id s_id ≤ get_total_class_days db o_id) :
    0 ≤ attendance_percentage db o_id s_id ∧
      attendance_percentage db o_id s_id ≤ 100 := by
  unfold attendance_percentage
  by_cases h : 0 < get_total_class_days db o_id
  · rw [if_pos h]
    have hp : (0 : ℚ) ≤ (present_count db o_id s_id : ℚ) := Nat.cast_nonneg _
    have ht : (0 : ℚ) < (get_total_class_days db o_id : ℚ) := by exact_mod_cast h
    have hpt : (present_count db o_id s_id : ℚ) ≤ (get_total_class_days db o_id : ℚ) :=
      by exact_mod_cast hle
    have hq0 : (0 : ℚ) ≤ (present_count db o_id s_id : ℚ) * 100 /
        (get_total_class_days db o_id : ℚ) := by positivity
    have hq100 : (present_count db o_id s_id : ℚ) * 100 /
        (get_total_class_days db o_id : ℚ) ≤ 100 := by
      rw [div_le_iff₀ ht]
      nlinarith
    constructor
    · unfold trunc2
      have h0 : (0 : ℤ) ≤ ⌊(present_count db o_id s_id : ℚ) * 100 /
          (get_total_class_days db o_id : ℚ) * 100⌋ :=
        Int.floor_nonneg.2 (by positivity)
      have : (0 : ℚ) ≤ (⌊(present_count db o_id s_id : ℚ) * 100 /
          (get_total_class_days db o_id : ℚ) * 100⌋ : ℚ) := by exact_mod_cast h0
      linarith
    · unfold trunc2
      have h1 : ((⌊(present_count db o_id s_id : ℚ) * 100 /
          (get_total_class_days db o_id : ℚ) * 100⌋ : ℚ)) ≤
          (present_count db o_id s_id : ℚ) * 100 /
            (get_total_class_days db o_id : ℚ) * 100 := Int.floor_le _
      have h2 : (present_count db o_id s_id : ℚ) * 100 /
          (get_total_class_days db o_id : ℚ) * 100 ≤ 10000 := by nlinarith
      linarith
  · rw [if_neg h]
    norm_num

/-- C9: under the `UNIQUE(offering_id, student_id, date)` constraint,
every stats row has `attended_classes ≤ total_classes` and therefore an
`attendance_percentage` in `[0, 100]`. -/
theorem C9_percentage_bounded (db : DB) (o_id : Nat)
    (huniq : db.attendance_records.Pairwise (fun r1 r2 =>
      ¬(r1.offering_id = r2.offering_id ∧ r1.student_id = r2.student_id ∧
        r1.date = r2.date))) :
    ∀ r ∈ get_course_attendance_stats db o_id,
      r.attended_classes ≤ r.total_classes ∧
      0 ≤ r.attendance_percentage ∧ r.attendance_percentage ≤ 100 := by
  intro r hr
  obtain ⟨-, htot, hatt, hpct⟩ := stats_row_shape db o_id r hr
  have hle := present_count_le_total db o_id r.student_id huniq
  have hbounds := attendance_percentage_bounds db o_id r.student_id hle
  rw [htot, hatt, hpct]
  exact ⟨hle, hbounds⟩

/-- `db_c1`'s stats output, computed once: the single row with
10 class days, 8 attended, percentage 80. -/
lemma stats_db_c1 : get_course_attendance_stats db_c1 1 = [row_c1] := by
  simp only [get_course_attendance_stats, db_c1, row_c1, get_total_class_days,
    present_count, attendance_percentage, trunc2]
  simp [List.filter_cons, List.filterMap_cons, List.find?_cons, List.dedup_cons_of_mem,
    List.dedup_cons_of_not_mem, List.dedup_nil]
  norm_num

/-- Witness for C9: in the concrete state `db_c1` (whose attendance
records satisfy the uniqueness constraint) the single returned row has
`8 ≤ 10` and percentage `80 ∈ [0, 100]`. -/
theorem C9_witness :
    row_c1.attended_classes ≤ row_c1.total_classes ∧
      0 ≤ row_c1.attendance_percentage ∧ row_c1.attendance_percentage ≤ 100 :=
  C9_percentage_bounded db_c1 1 (by decide) row_c1 (by rw [stats_db_c1]; exact List.mem_singleton_self _)

/-- Counterexample to C3 as stated: in `db_c3` the student's only
completed graded enrollment (4 credits, grade point 10) sits in an
offering whose `semester_id` was nulled, so `get_student_cgpa` with no
cutoff returns `0` while the claim's formula over ALL completed
enrollments gives `10`. -/
theorem C3_counterexample :
    get_student_cgpa db_c3 1 none ≠ cgpa_claimed db_c3 1 := by
  have h1 : get_student_cgpa db_c3 1 none = 0 := by
    simp only [get_student_cgpa, cgpa_rows, db_c3]
    simp [List.filterMap_cons, List.find?_cons]
  have h2 : cgpa_claimed db_c3 1 = 10 := by
    simp only [cgpa_claimed, cgpa_claimed_rows, db_c3]
    simp [List.filterMap_cons, List.find?_cons]
  rw [h1, h2]
  norm_num

/-- C3 (amended): SGPA and CGPA are the credit-weighted average
`Σ(credits·grade_point) / Σ(credits)` over their qualifying completed
graded enrollments and `0` when there are none; CGPA's qualifying set
requires the offering to reference an existing semester row (the RPC's
inner join), and coincides with the claim's "all completed enrollments"
reading whenever every offering does reference one; concretely, 4
credits at grade 10 plus 2 credits at grade 8 give `28/3`. -/
theorem C3_gpa_weighted_average (db : DB) (s_id target_sem_id : Nat)
    (cutoff : Option Nat) :
    (sgpa_rows db s_id target_sem_id = [] →
      get_student_sgpa db s_id target_sem_id = 0) ∧
    (sgpa_rows db s_id target_sem_id ≠ [] →
      get_student_sgpa db s_id target_sem_id =
        ((sgpa_rows db s_id target_sem_id).map (fun p => p.1 * p.2)).sum /
          ((sgpa_rows db s_id target_sem_id).map (fun p => p.1)).sum) ∧
    (cgpa_rows db s_id cutoff = [] → get_student_cgpa db s_id cutoff = 0) ∧
    (cgpa_rows db s_id cutoff ≠ [] →
      get_student_cgpa db s_id cutoff =
        ((cgpa_rows db s_id cutoff).map (fun p => p.1 * p.2)).sum /
          ((cgpa_rows db s_id cutoff).map (fun p => p.1)).sum) ∧
    ((∀ co ∈ db.course_offerings, ∃ sid, co.semester_id = some sid ∧
        ∃ s ∈ db.semesters, s.semester_id = sid) →
      cgpa_rows db s_id none = cgpa_claimed_rows db s_id) ∧
    get_student_sgpa db_c3b 1 1 = 28 / 3 ∧
    get_student_cgpa db_c3b 1 none = 28 / 3 := by
  refine ⟨?_, ?_, ?_, ?_, ?_, ?_, ?_⟩
  · intro h
    simp [get_student_sgpa, h]
  · intro h
    rw [get_student_sgpa]
    simp only [List.isEmpty_iff]
    rw [if_neg h]
  · intro h
    simp [get_student_cgpa, h]
  · intro h
    rw [get_student_cgpa]
    simp only [List.isEmpty_iff]
    rw [if_neg h]
  · intro hfk
    rw [cgpa_rows, cgpa_claimed_rows]
    apply List.filterMap_congr
    intro e _
    cases hcond : (e.student_id == s_id && e.status == enrollment_status.completed) with
    | false => rfl
    | true =>
      simp only [hcond, if_pos]
      cases e.grade_point with
      | none => rfl
      | some gp =>
        simp only [Option.some_bind']
        cases hco : db.course_offerings.find? (fun co => co.offering_id == e.offering_id) with
        | none => rfl
        | some co =>
          simp only [Option.some_bind']
          obtain ⟨sid, hsid, s, hsmem, hssid⟩ :=
            hfk co (List.mem_of_find?_eq_some hco)
          have hfs : (db.semesters.find? (fun x => x.semester_id == sid)).isSome :=
            List.find?_isSome.2 ⟨s, hsmem, by simp [hssid]⟩
          obtain ⟨sem, hsem⟩ := Option.isSome_iff_exists.1 hfs
          rw [hsid]
          simp only [Option.some_bind', hsem]
          cases db.courses.find? (fun c => c.course_id == co.course_id) with
          | none => rfl
          | some c => rfl
  · simp only [get_student_sgpa, sgpa_rows, db_c3b]
    simp [List.filterMap_cons, List.find?_cons]
    norm_num
  · simp only [get_student_cgpa, cgpa_rows, db_c3b]
    simp [List.filterMap_cons, List.find?_cons]
    norm_num

/-- Counterexample to C6 as stated: the offering has an attendance
record (an admin's read returns it), yet teacher 300 — who neither
teaches offering 1 nor is assigned to it as TA — receives the empty
list from the same read: row-level security silently filters the rows
out instead of raising an AuthorizationError. -/
theorem C6_counterexample :
    select_attendance_records db_c6 ⟨300, user_role.teacher⟩ 1 = [] ∧
    select_attendance_records db_c6 ⟨0, user_role.admin⟩ 1 =
      [⟨1, 200, 1, attendance_status.present⟩] :=
  ⟨by decide, by decide⟩

/-- C6 (amended): a teacher who does not teach the offering, is not
assigned to it as TA (and is not a student of any of its records) gets
the EMPTY list from a read of the offering's attendance records — the
RLS policies deny by filtering out every row; no AuthorizationError is
raised at this layer, and no partial data is ever returned as if
authorized. -/
theorem C6_unauthorized_teacher_reads_empty (db : DB) (p : principal) (o_id : Nat)
    (hrole : p.role = user_role.teacher)
    (hteach : ∀ co ∈ db.course_offerings, co.offering_id = o_id →
      co.teacher_id ≠ some p.uid)
    (hta : ∀ ct ∈ db.course_tas, ct.offering_id = o_id → ct.ta_id ≠ p.uid)
    (hown : ∀ r ∈ db.attendance_records, r.student_id ≠ p.uid) :
    select_attendance_records db p o_id = [] := by
  rw [select_attendance_records, List.filter_eq_nil_iff]
  intro r hr
  rw [List.mem_filter] at hr
  obtain ⟨hrmem, hro⟩ := hr
  rw [beq_iff_eq] at hro
  rw [attendance_select_allowed]
  simp only [Bool.or_eq_true, beq_iff_eq, List.any_eq_true, Bool.and_eq_true, not_or]
  refine ⟨⟨⟨?_, ?_⟩, ?_⟩, ?_⟩
  · rw [hrole]
    intro h
    exact absurd h (by decide)
  · exact hown r hrmem
  · rintro ⟨co, hco, hcoo, hcot⟩
    exact hteach co hco (hcoo.trans hro) hcot
  · rintro ⟨ct, hct, hcto, hctt⟩
    exact hta ct hct (hcto.trans hro) hctt

/-- Witness for C6 (amended): teacher 300's read of offering 1 in
`db_c6` comes back empty. -/
theorem C6_witness :
    select_attendance_records db_c6 ⟨300, user_role.teacher⟩ 1 = [] :=
  C6_unauthorized_teacher_reads_empty db_c6 ⟨300, user_role.teacher⟩ 1 rfl
    (by decide) (by decide) (by decide)

/-- Shape of a row of `get_teacher_offerings_with_status`: it stems from
an offering of the teacher, carries that offering's id, and its
`is_completed` flag is the completed-enrollment EXISTS for it. -/
lemma teacher_offering_row_shape (db : DB) (t_id : Nat) (r : teacher_offering_row)
    (h : r ∈ get_teacher_offerings_with_status db t_id) :
    ∃ co ∈ db.course_offerings, co.teacher_id = some t_id ∧
      r.offering_id = co.offering_id ∧
      (r.is_completed = true ↔ ∃ e ∈ db.enrollments,
        e.offering_id = co.offering_id ∧ e.status = enrollment_status.completed) := by
  rw [get_teacher_offerings_with_status] at h
  rw [(List.perm_insertionSort tor_ge _).mem_iff] at h
  obtain ⟨co, hco, hf⟩ := List.mem_filterMap.1 h
  rw [List.mem_filter] at hco
  obtain ⟨hcomem, hcot⟩ := hco
  rw [beq_iff_eq] at hcot
  rw [Option.bind_eq_some] at hf
  obtain ⟨c, hc, hmap⟩ := hf
  rw [Option.map_eq_some'] at hmap
  obtain ⟨s, hs, hr⟩ := hmap
  subst hr
  refine ⟨co, hcomem, hcot, rfl, ?_⟩
  simp only [List.any_eq_true, Bool.and_eq_true, beq_iff_eq]

/-- Counterexample to C8 as stated: in `db_c8` teacher 1 teaches
offering 1, but the offering's `semester_id` was nulled, the RPC's
inner join to `semesters` drops it, and the returned list has no row
for it — the RPC does not return ALL offerings of the teacher. -/
theorem C8_counterexample :
    ¬ (∀ co ∈ db_c8.course_offerings, co.teacher_id = some 1 →
        ∃ r ∈ get_teacher_offerings_with_status db_c8 1,
          r.offering_id = co.offering_id) := by
  decide

/-- C8 (amended): `TeacherOfferingsWithStatus(teacher)` returns rows
exactly for the teacher's offerings that reference an existing semester
(and course) row; every row's `is_completed` is true iff some
enrollment in that offering is completed; and the result is ordered by
the joined semester's `start_date` descending (null dates first). -/
theorem C8_teacher_offerings (db : DB) (t_id : Nat) :
    (∀ r ∈ get_teacher_offerings_with_status db t_id,
      ∃ co ∈ db.course_offerings, co.teacher_id = some t_id ∧
        r.offering_id = co.offering_id) ∧
    (∀ co ∈ db.course_offerings, co.teacher_id = some t_id →
      (∃ c ∈ db.courses, c.course_id = co.course_id) →
      (∃ sid, co.semester_id = some sid ∧
        ∃ s ∈ db.semesters, s.semester_id = sid) →
      ∃ r ∈ get_teacher_offerings_with_status db t_id,
        r.offering_id = co.offering_id) ∧
    (∀ r ∈ get_teacher_offerings_with_status db t_id,
      (r.is_completed = true ↔ ∃ e ∈ db.enrollments,
        e.offering_id = r.offering_id ∧
        e.status = enrollment_status.completed)) ∧
    List.Sorted tor_ge (get_teacher_offerings_with_status db t_id) := by
  refine ⟨?_, ?_, ?_, ?_⟩
  · intro r hr
    obtain ⟨co, hcomem, hcot, hoff, -⟩ := teacher_offering_row_shape db t_id r hr
    exact ⟨co, hcomem, hcot, hoff⟩
  · intro co hco ht ⟨c0, hc0, hc0id⟩ ⟨sid, hsid, s0, hs0, hs0id⟩
    have hfc : (db.courses.find? (fun c => c.course_id == co.course_id)).isSome :=
      List.find?_isSome.2 ⟨c0, hc0, by simp [hc0id]⟩
    obtain ⟨c, hc⟩ := Option.isSome_iff_exists.1 hfc
    have hfs : (db.semesters.find? (fun s => s.semester_id == sid)).isSome :=
      List.find?_isSome.2 ⟨s0, hs0, by simp [hs0id]⟩
    obtain ⟨s, hs⟩ := Option.isSome_iff_exists.1 hfs
    refine ⟨{ offering_id := co.offering_id
              course_id := co.course_id
              teacher_id := co.teacher_id
              semester_id := s.semester_id
              logical_semester := c.logical_semester
              academic_year := s.academic_year
              season := s.season
              stream := c.stream
              start_date := s.start_date
              is_completed := db.enrollments.any (fun e =>
                e.offering_id == co.offering_id &&
                  e.status == enrollment_status.completed) }, ?_, rfl⟩
    rw [get_teacher_offerings_with_status, (List.perm_insertionSort tor_ge _).mem_iff]
    apply List.mem_filterMap.2
    refine ⟨co, List.mem_filter.2 ⟨hco, by simp [ht]⟩, ?_⟩
    rw [hc]
    simp only [Option.some_bind']
    rw [hsid]
    simp only [Option.some_bind', hs, Option.map_some']
  · intro r hr
    obtain ⟨co, hcomem, hcot, hoff, hflag⟩ := teacher_offering_row_shape db t_id r hr
    rw [hoff]
    exact hflag
  · rw [get_teacher_offerings_with_status]
    exact List.sorted_insertionSort tor_ge _
